import Mathlib

/-!
Shallow embedding of `src/tctmd_downloader.py` (class `TCTMDDownloader`).

The network is modelled as an oracle: each component receives the responses
the HTTP session would produce, and all observable effects (files written,
ledger lines appended, number of network requests issued, sleep calls) are
returned explicitly.  Every definition mirrors the control flow of the
corresponding Python function; line references point into the source file.
-/

set_option autoImplicit false

namespace TCTMD

/-- Python list/string helper: `startsWithL n h` is true when `n` is a
prefix of `h` (character lists). -/
def startsWithL : List Char → List Char → Bool
  | [], _ => true
  | _ :: _, [] => false
  | a :: as, b :: bs => a == b && startsWithL as bs

/-- Python substring test `needle in hay` over character lists
(used for the ledger check `url in f.read()`, line 304). -/
def occursIn (needle : List Char) (hay : List Char) : Bool :=
  match hay with
  | [] => needle.isEmpty
  | _ :: t => startsWithL needle hay || occursIn needle t

/-- Python `s.endswith(suffix)`. -/
def endsWithL (s sfx : String) : Bool :=
  startsWithL sfx.toList.reverse s.toList.reverse

/-- `url.split('/')[-1]` (line 295): the characters after the last slash. -/
def urlBasename (url : String) : String :=
  String.mk (url.toList.foldl (fun acc c => if c = '/' then [] else acc ++ [c]) [])

/-- `os.path.join(self.output_dir, url.split('/')[-1])` (line 295). -/
def localName (outputDir url : String) : String :=
  outputDir ++ "/" ++ urlBasename url

/-- Contents of the ledger file `downloaded_pdfs.txt`: every successful
download appends the line `f"{url}\n"` (line 319), and the file starts
empty (lines 33-35), so the raw contents are the concatenation of the
recorded urls, each followed by a newline. -/
def renderLedger : List String → List Char
  | [] => []
  | u :: rest => u.toList ++ ('\n' :: renderLedger rest)

/-- The ledger check of lines 303-306: Python substring containment
`url in f.read()` of the url in the raw ledger file contents. -/
def ledgerHas (url : String) (ledger : List String) : Bool :=
  occursIn url.toList (renderLedger ledger)

/-- The downloads directory, as an association of path to contents. -/
abbrev FileSys := List (String × String)

/-- `os.path.exists(filename)` (line 298). -/
def fileExists (fs : FileSys) (name : String) : Bool :=
  fs.any (fun p => p.1 == name)

/-- `open(filename, 'wb')` followed by writing `content`: creates or
truncates the file at `name` (lines 312-315). -/
def setFile (fs : FileSys) (name content : String) : FileSys :=
  (name, content) :: fs.filter (fun p => p.1 != name)

/-- Contents of the file at `name`, when it exists. -/
def fileContent (fs : FileSys) (name : String) : Option String :=
  (fs.find? (fun p => p.1 == name)).map (fun p => p.2)

/-- Outcome of streaming the body of a `200` response to disk:
either the full content is written, or `iter_content` raises after
`written` has been written (the `with open` block, lines 312-315). -/
inductive BodyStream where
  | full (content : String)
  | interrupted (written : String)
deriving DecidableEq

/-- One response of `self.session.get(url, stream=True)` (line 310):
either the request raises, or it yields a status code and a body stream. -/
inductive HttpResp where
  | netErr
  | resp (code : Nat) (body : BodyStream)
deriving DecidableEq

/-- Observable outcome of one `download_pdf` call: return value, final
file system, final ledger, number of network requests issued, and the
durations passed to `time.sleep` for backoff (in seconds, in order). -/
structure DlResult where
  success : Bool
  files : FileSys
  ledger : List String
  requests : Nat
  sleeps : List Nat
deriving DecidableEq

/-- `retry_count=3`, the default used by every caller (line 292). -/
def retryCount : Nat := 3

/-- The attempt loop `for attempt in range(retry_count)` of
`download_pdf` (lines 308-337).  `attempt` is the current index,
`remaining` the attempts left (`retryCount - attempt` at every call).
On a 200 the body is streamed to `filename` and the url is appended to
the ledger (lines 311-322); a 403 returns failure at once (lines
324-326); any other status retries without sleeping (lines 328-329); an
exception (network error, or a raise while streaming) sleeps
`2 ** attempt` seconds unless this was the last attempt, then retries
(lines 331-335); exhausting the loop returns failure (line 337). -/
def dlLoop (sess : Nat → HttpResp) (url filename : String)
    (fs : FileSys) (ledger : List String) (attempt remaining reqs : Nat)
    (sleeps : List Nat) : DlResult :=
  match remaining with
  | 0 => ⟨false, fs, ledger, reqs, sleeps⟩
  | r + 1 =>
    match sess attempt with
    | .netErr =>
      dlLoop sess url filename fs ledger (attempt + 1) r (reqs + 1)
        (sleeps ++ (if attempt < retryCount - 1 then [2 ^ attempt] else []))
    | .resp code body =>
      if code = 200 then
        match body with
        | .full content =>
          ⟨true, setFile fs filename content, ledger ++ [url], reqs + 1, sleeps⟩
        | .interrupted written =>
          dlLoop sess url filename (setFile fs filename written) ledger (attempt + 1) r
            (reqs + 1) (sleeps ++ (if attempt < retryCount - 1 then [2 ^ attempt] else []))
      else if code = 403 then ⟨false, fs, ledger, reqs + 1, sleeps⟩
      else dlLoop sess url filename fs ledger (attempt + 1) r (reqs + 1) sleeps

/-- `download_pdf(self, url, retry_count=3)` (lines 292-341).
Derives the local filename, short-circuits on an existing file (lines
298-300) or on the url occurring as a substring of the ledger contents
(lines 303-306), and otherwise runs the attempt loop. -/
def download_pdf (sess : Nat → HttpResp) (outputDir url : String)
    (fs : FileSys) (ledger : List String) : DlResult :=
  let filename := localName outputDir url
  if fileExists fs filename then ⟨true, fs, ledger, 0, []⟩
  else if ledgerHas url ledger then ⟨true, fs, ledger, 0, []⟩
  else dlLoop sess url filename fs ledger 0 retryCount 0 []

/-- One anchor tag of a presentation detail page, restricted to what
`get_pdf_url_from_presentation` inspects: its `href` attribute (absent
or a string) and whether it carries `data-feathr-click-track="true"`. -/
structure Anchor where
  href : Option String
  feathrTrack : Bool
deriving DecidableEq

/-- Response of the GET on a presentation detail page (line 272): the
request may raise; otherwise it has a status code and a parsed body,
abstracted to its list of anchor tags in document order. -/
inductive PageResp where
  | err
  | resp (code : Nat) (anchors : List Anchor)
deriving DecidableEq

/-- The BeautifulSoup filter of line 280: the anchor must carry
`data-feathr-click-track="true"` and an `href` that is truthy and ends
in `.pdf`. -/
def anchorMatchesPdf (a : Anchor) : Bool :=
  a.feathrTrack &&
    (match a.href with
     | some h => endsWithL h ".pdf"
     | none => false)

/-- `get_pdf_url_from_presentation(self, presentation_url)` (lines
269-290): on a 200 response, return the href of the first anchor
matching the line-280 filter verbatim; in every other case (non-200
status, exception, no matching anchor, falsy href) return `None`. -/
def get_pdf_url_from_presentation (r : PageResp) : Option String :=
  match r with
  | .err => none
  | .resp code anchors =>
    if code = 200 then
      match anchors.find? anchorMatchesPdf with
      | some a =>
        match a.href with
        | some h => if h = "" then none else some h
        | none => none
      | none => none
    else none

/-- JSON body of the login POST as `login` reads it (lines 191-194):
`response.json()` may raise (`malformed`); otherwise the code reads the
truthiness of `success` and of `data.cookie_redirect` (absent is
modelled as `none`, falsy-empty as `some ""`). -/
inductive JsonBody where
  | malformed
  | obj (success : Bool) (cookieRedirect : Option String)
deriving DecidableEq

/-- Response of the login POST (line 181): it may raise, or carry a
status code and a JSON body. -/
inductive PostResp where
  | err
  | resp (code : Nat) (body : JsonBody)
deriving DecidableEq

/-- Response of one GET of the redirect chain (line 108): it may raise,
or carry a status code and an optional `Location` header. -/
inductive HopResp where
  | err
  | resp (code : Nat) (location : Option String)
deriving DecidableEq

/-- Response of the verification GET on the site root (line 43): it may
raise, or carry a status code plus whether the parsed body tag has class
`user-logged-in` and whether that token occurs in the raw page text. -/
inductive RootResp where
  | err
  | resp (code : Nat) (markerClass markerText : Bool)
deriving DecidableEq

/-- `verify_login(self)` (lines 37-68): true exactly when the root GET
succeeds with status 200 and the `user-logged-in` marker is found either
as a body class or in the raw text; any exception returns false. -/
def verify_login (r : RootResp) : Bool :=
  match r with
  | .err => false
  | .resp code mc mt => if code = 200 then mc || mt else false

/-- The status codes that continue the redirect chain (line 124). -/
def isRedirectCode (c : Nat) : Bool :=
  c == 301 || c == 302 || c == 303 || c == 307

/-- `max_redirects = 5` (line 96). -/
def maxRedirects : Nat := 5

/-- The loop of `follow_okta_redirect` (lines 99-147).  `hops i` is the
response of the i-th GET of the chain; `fuel` is the iterations left of
`for i in range(max_redirects)`.  A redirect status with a truthy
`Location` continues the chain; a redirect without one fails (lines
125-128); a 200 hands over to `verify_login` (lines 140-141); any other
status fails (lines 142-144); running out of iterations fails (lines
146-147); an exception anywhere fails (lines 149-152). -/
def followOktaLoop (hops : Nat → HopResp) (root : RootResp) :
    Nat → Nat → Bool
  | 0, _ => false
  | f + 1, i =>
    match hops i with
    | .err => false
    | .resp code loc =>
      if isRedirectCode code then
        match loc with
        | none => false
        | some l => if l = "" then false else followOktaLoop hops root f (i + 1)
      else if code = 200 then verify_login root
      else false

/-- `follow_okta_redirect(self, redirect_url)` (lines 70-152). -/
def follow_okta_redirect (hops : Nat → HopResp) (root : RootResp) : Bool :=
  followOktaLoop hops root maxRedirects 0

/-- Everything the network hands to one `login` call: whether the
initial cookie-seeding GET of line 159 succeeds, the login POST
response, the redirect-chain responses, and the verification response. -/
structure LoginOracle where
  initialOk : Bool
  post : PostResp
  hops : Nat → HopResp
  root : RootResp

/-- `login(self)` (lines 154-209).  The initial GET raising is caught by
the outer handler (lines 206-209).  On a 200 POST response the JSON is
read: a decode error returns false (lines 197-200); `success` truthy
with a truthy `cookie_redirect` enters the redirect chain (lines
192-195); every other shape falls through to `return False` (lines
202-204), as does a non-200 status. -/
def login (o : LoginOracle) : Bool :=
  if !o.initialOk then false
  else
    match o.post with
    | .err => false
    | .resp code body =>
      if code = 200 then
        match body with
        | .malformed => false
        | .obj ok cr =>
          if ok then
            match cr with
            | some c =>
              if c = "" then false else follow_okta_redirect o.hops o.root
            | none => false
          else false
      else false

/-- Observable outcome of one `download_all_pdfs` call. -/
structure RunResult where
  success : Bool
  files : FileSys
  ledger : List String
  downloadCount : Nat
deriving DecidableEq

/-- The body of the presentation loop (lines 363-373): resolve the pdf
url of one presentation; on success download it, threading the file
system and ledger and counting successful downloads; a missing pdf url
is only logged. -/
def processOne (resolve : String → Option String)
    (sess : String → Nat → HttpResp) (outputDir : String)
    (st : FileSys × List String × Nat) (purl : String) :
    FileSys × List String × Nat :=
  match resolve purl with
  | some pdfUrl =>
    let r := download_pdf (sess pdfUrl) outputDir pdfUrl st.1 st.2.1
    if r.success then (r.files, r.ledger, st.2.2 + 1) else (r.files, r.ledger, st.2.2)
  | none => st

set_option linter.unusedVariables false in
/-- `download_all_pdfs(self)` (lines 343-381).  A failed login returns
False (lines 346-348); the listing of page 1 being empty returns False
(lines 355-357); otherwise only `presentations[:2]` are processed (line
363) and the run returns True whatever the per-presentation outcomes.
`testMode` mirrors the `test_mode` flag of `__init__` (line 17), which
`download_all_pdfs` never consults. -/
def download_all_pdfs (testMode : Bool) (lo : LoginOracle)
    (presentations : List String) (resolve : String → Option String)
    (sess : String → Nat → HttpResp) (outputDir : String)
    (fs : FileSys) (ledger : List String) : RunResult :=
  if !login lo then ⟨false, fs, ledger, 0⟩
  else if presentations.isEmpty then ⟨false, fs, ledger, 0⟩
  else
    let final := (presentations.take 2).foldl (processOne resolve sess outputDir) (fs, ledger, 0)
    ⟨true, final.1, final.2.1, final.2.2⟩

/-- A response on which the attempt loop of `download_pdf` moves on to
the next attempt: an exception (raised GET or interrupted stream), or a
status that is neither 200 nor 403. -/
def isRetryable (r : HttpResp) : Bool :=
  match r with
  | .netErr => true
  | .resp code body =>
    if code = 200 then
      match body with
      | .full _ => false
      | .interrupted _ => true
    else !(code == 403)

/-- A response whose handling goes through the `except` clause of the
attempt loop (lines 331-335), the only place that sleeps. -/
def isErrPath (r : HttpResp) : Bool :=
  match r with
  | .netErr => true
  | .resp code body =>
    if code = 200 then
      match body with
      | .full _ => false
      | .interrupted _ => true
    else false

/-- The backoff sleeps accumulated over `k` consecutive retried attempts
starting at index `attempt`: `2 ^ i` seconds after attempt `i` exactly
when that attempt went through the `except` clause and was not the last
allowed attempt. -/
def attemptSleeps (sess : Nat → HttpResp) (attempt k : Nat) : List Nat :=
  match k with
  | 0 => []
  | kk + 1 =>
    (if isErrPath (sess attempt) = true ∧ attempt < retryCount - 1
      then [2 ^ attempt] else []) ++ attemptSleeps sess (attempt + 1) kk

/-- A hop response that continues the redirect chain: a redirect status
code with a truthy `Location` header. -/
def HopResp.isRedirWithLoc (h : HopResp) : Bool :=
  match h with
  | .resp code (some l) => isRedirectCode code && !(l == "")
  | _ => false

/-- A hop response with a redirect status code but no truthy `Location`
header (lines 125-128). -/
def HopResp.isRedirNoLoc (h : HopResp) : Bool :=
  match h with
  | .resp code none => isRedirectCode code
  | .resp code (some l) => isRedirectCode code && (l == "")
  | .err => false

/-! ### Helper lemmas -/

lemma startsWithL_append_self (xs ys : List Char) :
    startsWithL xs (xs ++ ys) = true := by
  induction xs with
  | nil => rfl
  | cons a as ih => simp [startsWithL, ih]

lemma occursIn_of_startsWithL {n h : List Char} (hs : startsWithL n h = true) :
    occursIn n h = true := by
  cases h with
  | nil =>
    cases n with
    | nil => rfl
    | cons a as => simp [startsWithL] at hs
  | cons c t => simp [occursIn, hs]

lemma occursIn_append_left {n t : List Char} (pre : List Char)
    (h : occursIn n t = true) : occursIn n (pre ++ t) = true := by
  induction pre with
  | nil => simpa using h
  | cons p ps ih => simp [occursIn, ih]

/-- A url recorded as a ledger entry occurs as a substring of the raw
ledger file contents. -/
lemma occursIn_of_mem {u : String} {l : List String} (h : u ∈ l) :
    occursIn u.toList (renderLedger l) = true := by
  induction l with
  | nil => cases h
  | cons v rest ih =>
    rcases List.mem_cons.mp h with rfl | hmem
    · exact occursIn_of_startsWithL (startsWithL_append_self _ _)
    · have : renderLedger (v :: rest) = (v.toList ++ ['\n']) ++ renderLedger rest := by
        simp [renderLedger]
      rw [this]
      exact occursIn_append_left _ (ih hmem)

/-- A url recorded as a ledger entry passes the substring check. -/
lemma ledgerHas_of_mem {u : String} {l : List String} (h : u ∈ l) :
    ledgerHas u l = true :=
  occursIn_of_mem h

lemma not_mem_of_ledgerHas_eq_false {u : String} {l : List String}
    (h : ledgerHas u l = false) : u ∉ l := by
  intro hmem
  rw [ledgerHas_of_mem hmem] at h
  cases h

lemma fileExists_setFile (fs : FileSys) (n c : String) :
    fileExists (setFile fs n c) n = true := by
  simp [fileExists, setFile]

lemma fileContent_setFile (fs : FileSys) (n c : String) :
    fileContent (setFile fs n c) n = some c := by
  simp [fileContent, setFile, List.find?]

/-- Skipping `k` consecutive retried attempts: the loop reaches attempt
`attempt + k` having issued `k` more requests, appended exactly the
backoff sleeps of `attemptSleeps`, and left the ledger untouched (only
the file system may have changed, through interrupted streams). -/
lemma dlLoop_skip (sess : Nat → HttpResp) (url fn : String) (ledger : List String) :
    ∀ (k attempt remaining reqs : Nat) (fs : FileSys) (sleeps : List Nat),
      k ≤ remaining →
      (∀ j, j < k → isRetryable (sess (attempt + j)) = true) →
      ∃ fs2, dlLoop sess url fn fs ledger attempt remaining reqs sleeps =
        dlLoop sess url fn fs2 ledger (attempt + k) (remaining - k) (reqs + k)
          (sleeps ++ attemptSleeps sess attempt k) := by
  intro k
  induction k with
  | zero =>
    intro attempt remaining reqs fs sleeps _ _
    exact ⟨fs, by simp [attemptSleeps]⟩
  | succ kk ih =>
    intro attempt remaining reqs fs sleeps hk hret
    obtain ⟨r, rfl⟩ : ∃ r, remaining = r + 1 := ⟨remaining - 1, by omega⟩
    have h0 : isRetryable (sess attempt) = true := by
      have := hret 0 (Nat.succ_le_succ (Nat.zero_le _))
      simpa using this
    have hshift : ∀ j, j < kk → isRetryable (sess (attempt + 1 + j)) = true := by
      intro j hj
      have := hret (j + 1) (by omega)
      have harith : attempt + (j + 1) = attempt + 1 + j := by omega
      rwa [harith] at this
    have hk2 : kk ≤ r := by omega
    rcases hse : sess attempt with _ | ⟨code, body⟩
    · -- network error: sleeps, retries
      have hE : isErrPath (sess attempt) = true := by rw [hse]; rfl
      obtain ⟨fs2, hfs2⟩ := ih (attempt + 1) r (reqs + 1)
        fs (sleeps ++ (if attempt < retryCount - 1 then [2 ^ attempt] else []))
        hk2 hshift
      refine ⟨fs2, ?_⟩
      rw [dlLoop, hse]
      rw [hfs2]
      have e1 : attempt + 1 + kk = attempt + (kk + 1) := by omega
      have e2 : reqs + 1 + kk = reqs + (kk + 1) := by omega
      have e3 : r - kk = r + 1 - (kk + 1) := by omega
      rw [e1, e2, e3, attemptSleeps, hE]
      simp [List.append_assoc]
    · by_cases hc : code = 200
      · subst hc
        cases body with
        | full content =>
          exfalso
          rw [hse] at h0
          simp [isRetryable] at h0
        | interrupted written =>
          have hE : isErrPath (sess attempt) = true := by rw [hse]; rfl
          obtain ⟨fs2, hfs2⟩ := ih (attempt + 1) r (reqs + 1)
            (setFile fs fn written)
            (sleeps ++ (if attempt < retryCount - 1 then [2 ^ attempt] else []))
            hk2 hshift
          refine ⟨fs2, ?_⟩
          rw [dlLoop, hse]
          simp only [if_pos rfl]
          rw [hfs2]
          have e1 : attempt + 1 + kk = attempt + (kk + 1) := by omega
          have e2 : reqs + 1 + kk = reqs + (kk + 1) := by omega
          have e3 : r - kk = r + 1 - (kk + 1) := by omega
          rw [e1, e2, e3, attemptSleeps, hE]
          simp [List.append_assoc]
      · have h403 : code ≠ 403 := by
          intro h; subst h
          rw [hse] at h0
          simp [isRetryable] at h0
        have hE : isErrPath (sess attempt) = false := by
          rw [hse]
          simp [isErrPath, hc]
        obtain ⟨fs2, hfs2⟩ := ih (attempt + 1) r (reqs + 1) fs sleeps hk2 hshift
        refine ⟨fs2, ?_⟩
        rw [dlLoop, hse]
        simp only [if_neg hc, if_neg h403]
        rw [hfs2]
        have e1 : attempt + 1 + kk = attempt + (kk + 1) := by omega
        have e2 : reqs + 1 + kk = reqs + (kk + 1) := by omega
        have e3 : r - kk = r + 1 - (kk + 1) := by omega
        rw [e1, e2, e3, attemptSleeps, hE]
        simp

/-- Exhausting `retryCount` retryable attempts ends in failure with one
request per attempt and an untouched ledger. -/
lemma dlLoop_all_retryable (sess : Nat → HttpResp) (url fn : String)
    (fs : FileSys) (ledger : List String)
    (hret : ∀ j, j < retryCount → isRetryable (sess j) = true) :
    ∃ fs2, dlLoop sess url fn fs ledger 0 retryCount 0 [] =
      ⟨false, fs2, ledger, retryCount, attemptSleeps sess 0 retryCount⟩ := by
  obtain ⟨fs2, hfs2⟩ := dlLoop_skip sess url fn ledger retryCount 0 retryCount 0 fs []
    (Nat.le_refl _) (by simpa using hret)
  refine ⟨fs2, ?_⟩
  rw [hfs2]
  simp [dlLoop]

/-- A 403 on attempt `i`, after `i` retryable attempts, stops the loop
at once: failure, exactly `i + 1` requests, ledger untouched. -/
lemma dlLoop_403_at (sess : Nat → HttpResp) (url fn : String)
    (fs : FileSys) (ledger : List String) (i : Nat) (b : BodyStream)
    (hi : i < retryCount)
    (hbefore : ∀ j, j < i → isRetryable (sess j) = true)
    (h403 : sess i = HttpResp.resp 403 b) :
    ∃ fs2 sl, dlLoop sess url fn fs ledger 0 retryCount 0 [] =
      ⟨false, fs2, ledger, i + 1, sl⟩ := by
  obtain ⟨fs2, hfs2⟩ := dlLoop_skip sess url fn ledger i 0 retryCount 0 fs []
    (Nat.le_of_lt hi) (by simpa using hbefore)
  obtain ⟨r, hr⟩ : ∃ r, retryCount - i = r + 1 := ⟨retryCount - i - 1, by omega⟩
  refine ⟨fs2, attemptSleeps sess 0 i, ?_⟩
  rw [hfs2, hr]
  rw [dlLoop]
  simp only [Nat.zero_add, List.nil_append]
  rw [h403]
  norm_num

/-- A full 200 on attempt `i`, after `i` retryable attempts: success,
the body written to `fn`, the url appended once to the ledger, and
exactly `i + 1` requests. -/
lemma dlLoop_success_at (sess : Nat → HttpResp) (url fn : String)
    (fs : FileSys) (ledger : List String) (i : Nat) (body : String)
    (hi : i < retryCount)
    (hbefore : ∀ j, j < i → isRetryable (sess j) = true)
    (hok : sess i = HttpResp.resp 200 (BodyStream.full body)) :
    ∃ fs2 sl, dlLoop sess url fn fs ledger 0 retryCount 0 [] =
      ⟨true, setFile fs2 fn body, ledger ++ [url], i + 1, sl⟩ := by
  obtain ⟨fs2, hfs2⟩ := dlLoop_skip sess url fn ledger i 0 retryCount 0 fs []
    (Nat.le_of_lt hi) (by simpa using hbefore)
  obtain ⟨r, hr⟩ : ∃ r, retryCount - i = r + 1 := ⟨retryCount - i - 1, by omega⟩
  refine ⟨fs2, attemptSleeps sess 0 i, ?_⟩
  rw [hfs2, hr]
  rw [dlLoop]
  simp only [Nat.zero_add, List.nil_append]
  rw [hok]
  norm_num

/-- A hop that is a redirect with a truthy `Location` advances the chain
by one request. -/
lemma followOktaLoop_step (hops : Nat → HopResp) (root : RootResp) (f i : Nat)
    (h : (hops i).isRedirWithLoc = true) :
    followOktaLoop hops root (f + 1) i = followOktaLoop hops root f (i + 1) := by
  rcases hh : hops i with _ | ⟨code, loc⟩
  · rw [hh] at h; simp [HopResp.isRedirWithLoc] at h
  · rcases loc with _ | l
    · rw [hh] at h; simp [HopResp.isRedirWithLoc] at h
    · rw [hh] at h
      simp only [HopResp.isRedirWithLoc, Bool.and_eq_true, Bool.not_eq_true',
        beq_eq_false_iff_ne, ne_eq] at h
      rw [followOktaLoop, hh]
      simp [h.1, h.2]

/-- Five redirects with locations exhaust `max_redirects`: hard failure. -/
lemma followOktaLoop_all_redirects (hops : Nat → HopResp) (root : RootResp) :
    ∀ (f i : Nat), (∀ j, i ≤ j → j < i + f → (hops j).isRedirWithLoc = true) →
      followOktaLoop hops root f i = false := by
  intro f
  induction f with
  | zero => intro i _; rfl
  | succ ff ih =>
    intro i hall
    rw [followOktaLoop_step hops root ff i (hall i (Nat.le_refl _) (by omega))]
    exact ih (i + 1) (fun j hj1 hj2 => hall j (by omega) (by omega))

/-- A hop that is neither a continuing redirect nor a 200 (a redirect
without a truthy location, an exception, or any other status) fails the
chain, after any prefix of continuing redirects. -/
lemma followOktaLoop_stops (hops : Nat → HopResp) (root : RootResp) :
    ∀ (k f i : Nat), k < f →
      (∀ j, j < k → (hops (i + j)).isRedirWithLoc = true) →
      ((hops (i + k)).isRedirNoLoc = true ∨ hops (i + k) = HopResp.err ∨
        ∃ c l, hops (i + k) = HopResp.resp c l ∧ isRedirectCode c = false ∧ c ≠ 200) →
      followOktaLoop hops root f i = false := by
  intro k
  induction k with
  | zero =>
    intro f i hf _ hbad
    obtain ⟨ff, rfl⟩ : ∃ ff, f = ff + 1 := ⟨f - 1, by omega⟩
    simp only [Nat.add_zero] at hbad
    rcases hbad with hno | herr | ⟨c, l, hcl, hnr, hn200⟩
    · rcases hh : hops i with _ | ⟨code, loc⟩
      · rw [hh] at hno; simp [HopResp.isRedirNoLoc] at hno
      · rw [hh] at hno
        rcases loc with _ | l
        · rw [followOktaLoop, hh]
          simp only [HopResp.isRedirNoLoc] at hno
          simp [hno]
        · simp only [HopResp.isRedirNoLoc, Bool.and_eq_true, beq_iff_eq] at hno
          rw [followOktaLoop, hh]
          simp [hno.1, hno.2]
    · rw [followOktaLoop, herr]
    · rw [followOktaLoop, hcl]
      simp [hnr, hn200]
  | succ kk ih =>
    intro f i hf hall hbad
    obtain ⟨ff, rfl⟩ : ∃ ff, f = ff + 1 := ⟨f - 1, by omega⟩
    rw [followOktaLoop_step hops root ff i (by simpa using hall 0 (by omega))]
    refine ih ff (i + 1) (by omega) ?_ ?_
    · intro j hj
      have := hall (j + 1) (by omega)
      have harith : i + (j + 1) = i + 1 + j := by omega
      rwa [harith] at this
    · have harith : i + (kk + 1) = i + 1 + kk := by omega
      rwa [harith] at hbad

/-- `login` either fails outright or hands over to the redirect chain;
the latter only on a 200 POST response whose JSON has truthy `success`
and a truthy `cookie_redirect`. -/
lemma login_eq_false_or_chain (o : LoginOracle) :
    login o = false ∨ login o = followOktaLoop o.hops o.root maxRedirects 0 := by
  by_cases hI : o.initialOk
  · rcases hp : o.post with _ | ⟨code, body⟩
    · left; simp [login, hI, hp]
    · by_cases hc : code = 200
      · subst hc
        rcases body with _ | ⟨ok, cr⟩
        · left; simp [login, hI, hp]
        · cases ok with
          | false => left; simp [login, hI, hp]
          | true =>
            rcases cr with _ | c
            · left; simp [login, hI, hp]
            · by_cases hce : c = ""
              · left; simp [login, hI, hp, hce]
              · right; simp [login, hI, hp, hce, follow_okta_redirect]
      · left; simp [login, hI, hp, hc]
  · left
    simp only [Bool.not_eq_true] at hI
    simp [login, hI]

lemma find?_eq_head_of_filter {α : Type} (p : α → Bool) (l : List α) :
    l.find? p = (l.filter p).head? := by
  induction l with
  | nil => rfl
  | cons x xs ih =>
    by_cases hx : p x = true
    · rw [List.find?_cons_of_pos _ hx, List.filter_cons_of_pos hx]
      rfl
    · rw [List.find?_cons_of_neg _ hx, List.filter_cons_of_neg hx, ih]

lemma processOne_count_le (resolve : String → Option String)
    (sess : String → Nat → HttpResp) (outputDir : String)
    (st : FileSys × List String × Nat) (purl : String) :
    (processOne resolve sess outputDir st purl).2.2 ≤ st.2.2 + 1 := by
  rcases hr : resolve purl with _ | u
  · simp only [processOne, hr]
    exact Nat.le_succ _
  · simp only [processOne, hr]
    by_cases hs : (download_pdf (sess u) outputDir u st.1 st.2.1).success = true
    · simp only [hs, if_true]
      exact Nat.le_refl _
    · simp only [hs, if_false]
      exact Nat.le_succ _

lemma foldl_processOne_count_le (resolve : String → Option String)
    (sess : String → Nat → HttpResp) (outputDir : String) :
    ∀ (l : List String) (st : FileSys × List String × Nat),
      (l.foldl (processOne resolve sess outputDir) st).2.2 ≤ st.2.2 + l.length := by
  intro l
  induction l with
  | nil => intro st; simp
  | cons a as ih =>
    intro st
    have h1 := ih (processOne resolve sess outputDir st a)
    have h2 := processOne_count_le resolve sess outputDir st a
    simp only [List.foldl_cons, List.length_cons]
    omega

/-! ### Claims -/

/-- C1: for every URL such that a file already exists at the derived
local path (output directory joined with the final path segment of the
URL) or the URL is already present in the ledger, `download_pdf` returns
success and performs zero network requests. -/
theorem C1_dedup_short_circuit (sess : Nat → HttpResp) (outputDir url : String)
    (fs : FileSys) (ledger : List String)
    (h : fileExists fs (localName outputDir url) = true ∨ url ∈ ledger) :
    (download_pdf sess outputDir url fs ledger).success = true ∧
    (download_pdf sess outputDir url fs ledger).requests = 0 := by
  rcases h with hf | hm
  · simp [download_pdf, hf]
  · by_cases hf : fileExists fs (localName outputDir url) = true
    · simp [download_pdf, hf]
    · simp [download_pdf, hf, ledgerHas_of_mem hm]

/-- Witness for C1, covering both short circuits: an existing file at
`downloads/a.pdf`, and a url recorded in the ledger. -/
theorem C1_dedup_short_circuit_witness :
    ((download_pdf (fun _ => HttpResp.netErr) "downloads" "https://t/a.pdf"
        [("downloads/a.pdf", "x")] []).success = true ∧
      (download_pdf (fun _ => HttpResp.netErr) "downloads" "https://t/a.pdf"
        [("downloads/a.pdf", "x")] []).requests = 0) ∧
    ((download_pdf (fun _ => HttpResp.netErr) "downloads" "https://t/b.pdf"
        [] ["https://t/b.pdf"]).success = true ∧
      (download_pdf (fun _ => HttpResp.netErr) "downloads" "https://t/b.pdf"
        [] ["https://t/b.pdf"]).requests = 0) := by
  constructor
  · exact C1_dedup_short_circuit _ _ _ _ _ (Or.inl (by decide))
  · exact C1_dedup_short_circuit _ _ _ _ _ (Or.inr (by decide))

/-- C9: the ledger membership check is substring containment over the
whole ledger file: any url occurring anywhere as a substring of the
ledger contents makes `download_pdf` return success with zero network
requests, whether or not that url was itself recorded. -/
theorem C9_substring_containment (sess : Nat → HttpResp) (outputDir url : String)
    (fs : FileSys) (ledger : List String)
    (h : ledgerHas url ledger = true) :
    (download_pdf sess outputDir url fs ledger).success = true ∧
    (download_pdf sess outputDir url fs ledger).requests = 0 := by
  by_cases hf : fileExists fs (localName outputDir url) = true
  · simp [download_pdf, hf]
  · simp [download_pdf, hf, h]

/-- Witness for C9: `tctmd.com/files/a` was never recorded (it is not an
entry of the ledger) yet it is a proper substring of the one recorded
url, so the download is skipped as a false positive. -/
theorem C9_substring_containment_witness :
    "tctmd.com/files/a" ∉ ["https://www.tctmd.com/files/a.pdf"] ∧
    (download_pdf (fun _ => HttpResp.netErr) "downloads" "tctmd.com/files/a"
      [] ["https://www.tctmd.com/files/a.pdf"]).success = true ∧
    (download_pdf (fun _ => HttpResp.netErr) "downloads" "tctmd.com/files/a"
      [] ["https://www.tctmd.com/files/a.pdf"]).requests = 0 := by
  refine ⟨by decide, ?_⟩
  exact C9_substring_containment _ _ _ _ _ (by decide)

/-- C2: a successful download appends the url to the ledger exactly
once, and a second sequential `download_pdf` invocation for the same url
short-circuits (zero requests) without touching the ledger, because the
entry (and the file) were persisted before it ran. -/
theorem C2_ledger_exactly_once (sess sess2 : Nat → HttpResp)
    (outputDir url body : String) (fs : FileSys) (ledger : List String) (i : Nat)
    (hi : i < retryCount)
    (hbefore : ∀ j, j < i → isRetryable (sess j) = true)
    (h200 : sess i = HttpResp.resp 200 (BodyStream.full body))
    (hfile : fileExists fs (localName outputDir url) = false)
    (hled : ledgerHas url ledger = false) :
    (download_pdf sess outputDir url fs ledger).success = true ∧
    List.count url (download_pdf sess outputDir url fs ledger).ledger = 1 ∧
    (download_pdf sess2 outputDir url (download_pdf sess outputDir url fs ledger).files
      (download_pdf sess outputDir url fs ledger).ledger).success = true ∧
    (download_pdf sess2 outputDir url (download_pdf sess outputDir url fs ledger).files
      (download_pdf sess outputDir url fs ledger).ledger).requests = 0 ∧
    (download_pdf sess2 outputDir url (download_pdf sess outputDir url fs ledger).files
      (download_pdf sess outputDir url fs ledger).ledger).ledger =
      (download_pdf sess outputDir url fs ledger).ledger := by
  obtain ⟨fs2, sl, h1⟩ :=
    dlLoop_success_at sess url (localName outputDir url) fs ledger i body hi hbefore h200
  have hdl : download_pdf sess outputDir url fs ledger =
      dlLoop sess url (localName outputDir url) fs ledger 0 retryCount 0 [] := by
    simp [download_pdf, hfile, hled]
  rw [hdl, h1]
  have hz : List.count url ledger = 0 :=
    List.count_eq_zero.mpr (not_mem_of_ledgerHas_eq_false hled)
  refine ⟨rfl, ?_, ?_, ?_, ?_⟩
  · show List.count url (ledger ++ [url]) = 1
    simp [List.count_append, hz]
  · show (download_pdf sess2 outputDir url (setFile fs2 (localName outputDir url) body)
      (ledger ++ [url])).success = true
    simp [download_pdf, fileExists_setFile]
  · show (download_pdf sess2 outputDir url (setFile fs2 (localName outputDir url) body)
      (ledger ++ [url])).requests = 0
    simp [download_pdf, fileExists_setFile]
  · show (download_pdf sess2 outputDir url (setFile fs2 (localName outputDir url) body)
      (ledger ++ [url])).ledger = ledger ++ [url]
    simp [download_pdf, fileExists_setFile]

/-- Witness for C2: a fresh state, a first call answered 200, a second
call whose oracle would answer 500. -/
theorem C2_ledger_exactly_once_witness :
    (download_pdf (fun _ => HttpResp.resp 200 (BodyStream.full "PDF")) "downloads"
      "https://t/a.pdf" [] []).success = true ∧
    List.count "https://t/a.pdf"
      (download_pdf (fun _ => HttpResp.resp 200 (BodyStream.full "PDF")) "downloads"
        "https://t/a.pdf" [] []).ledger = 1 ∧
    (download_pdf (fun _ => HttpResp.resp 500 (BodyStream.full "")) "downloads"
      "https://t/a.pdf"
      (download_pdf (fun _ => HttpResp.resp 200 (BodyStream.full "PDF")) "downloads"
        "https://t/a.pdf" [] []).files
      (download_pdf (fun _ => HttpResp.resp 200 (BodyStream.full "PDF")) "downloads"
        "https://t/a.pdf" [] []).ledger).success = true ∧
    (download_pdf (fun _ => HttpResp.resp 500 (BodyStream.full "")) "downloads"
      "https://t/a.pdf"
      (download_pdf (fun _ => HttpResp.resp 200 (BodyStream.full "PDF")) "downloads"
        "https://t/a.pdf" [] []).files
      (download_pdf (fun _ => HttpResp.resp 200 (BodyStream.full "PDF")) "downloads"
        "https://t/a.pdf" [] []).ledger).requests = 0 ∧
    (download_pdf (fun _ => HttpResp.resp 500 (BodyStream.full "")) "downloads"
      "https://t/a.pdf"
      (download_pdf (fun _ => HttpResp.resp 200 (BodyStream.full "PDF")) "downloads"
        "https://t/a.pdf" [] []).files
      (download_pdf (fun _ => HttpResp.resp 200 (BodyStream.full "PDF")) "downloads"
        "https://t/a.pdf" [] []).ledger).ledger =
      (download_pdf (fun _ => HttpResp.resp 200 (BodyStream.full "PDF")) "downloads"
        "https://t/a.pdf" [] []).ledger :=
  C2_ledger_exactly_once (fun _ => HttpResp.resp 200 (BodyStream.full "PDF"))
    (fun _ => HttpResp.resp 500 (BodyStream.full "")) "downloads" "https://t/a.pdf" "PDF"
    [] [] 0 (by norm_num [retryCount]) (fun j hj => absurd hj (Nat.not_lt_zero j)) rfl
    (by decide) (by decide)

/-- C10: when every attempt of a call streams partially and then raises,
no ledger entry is written but the partial file of the last attempt
remains at the derived path, and any subsequent invocation for the same
url short-circuits on the existing file with zero requests, leaving the
partial file in place. -/
theorem C10_interrupted_stream (sess sess2 : Nat → HttpResp) (outputDir url : String)
    (fs : FileSys) (ledger : List String) (w : Nat → String)
    (hfile : fileExists fs (localName outputDir url) = false)
    (hled : ledgerHas url ledger = false)
    (hsess : ∀ i, i < retryCount → sess i = HttpResp.resp 200 (BodyStream.interrupted (w i))) :
    (download_pdf sess outputDir url fs ledger).success = false ∧
    (download_pdf sess outputDir url fs ledger).ledger = ledger ∧
    fileContent (download_pdf sess outputDir url fs ledger).files
      (localName outputDir url) = some (w 2) ∧
    (download_pdf sess2 outputDir url (download_pdf sess outputDir url fs ledger).files
      (download_pdf sess outputDir url fs ledger).ledger).success = true ∧
    (download_pdf sess2 outputDir url (download_pdf sess outputDir url fs ledger).files
      (download_pdf sess outputDir url fs ledger).ledger).requests = 0 ∧
    (download_pdf sess2 outputDir url (download_pdf sess outputDir url fs ledger).files
      (download_pdf sess outputDir url fs ledger).ledger).files =
      (download_pdf sess outputDir url fs ledger).files ∧
    (download_pdf sess2 outputDir url (download_pdf sess outputDir url fs ledger).files
      (download_pdf sess outputDir url fs ledger).ledger).ledger = ledger := by
  have hret : ∀ j, j < 2 → isRetryable (sess (0 + j)) = true := by
    intro j hj
    rw [Nat.zero_add, hsess j (by norm_num [retryCount]; omega)]
    rfl
  obtain ⟨fs2, h2⟩ := dlLoop_skip sess url (localName outputDir url) ledger 2 0 retryCount 0 fs []
    (by norm_num [retryCount]) hret
  have h3 : dlLoop sess url (localName outputDir url) fs2 ledger (0 + 2) (retryCount - 2)
      (0 + 2) ([] ++ attemptSleeps sess 0 2) =
      ⟨false, setFile fs2 (localName outputDir url) (w 2), ledger, 3,
        ([] ++ attemptSleeps sess 0 2) ++ []⟩ := by
    rw [show retryCount - 2 = 0 + 1 from rfl, dlLoop]
    rw [Nat.zero_add, hsess 2 (by norm_num [retryCount])]
    simp [dlLoop, retryCount]
  have hdl : download_pdf sess outputDir url fs ledger =
      ⟨false, setFile fs2 (localName outputDir url) (w 2), ledger, 3,
        ([] ++ attemptSleeps sess 0 2) ++ []⟩ := by
    rw [download_pdf]
    simp only [hfile, hled, Bool.false_eq_true, if_false]
    rw [h2, h3]
  rw [hdl]
  refine ⟨rfl, rfl, ?_, ?_, ?_, ?_, ?_⟩
  · exact fileContent_setFile _ _ _
  · show (download_pdf sess2 outputDir url (setFile fs2 (localName outputDir url) (w 2))
      ledger).success = true
    simp [download_pdf, fileExists_setFile]
  · show (download_pdf sess2 outputDir url (setFile fs2 (localName outputDir url) (w 2))
      ledger).requests = 0
    simp [download_pdf, fileExists_setFile]
  · show (download_pdf sess2 outputDir url (setFile fs2 (localName outputDir url) (w 2))
      ledger).files = setFile fs2 (localName outputDir url) (w 2)
    simp [download_pdf, fileExists_setFile]
  · show (download_pdf sess2 outputDir url (setFile fs2 (localName outputDir url) (w 2))
      ledger).ledger = ledger
    simp [download_pdf, fileExists_setFile]

/-- Witness for C10: every attempt writes the partial content "HALF"
and raises; the second invocation would be answered 200 but never asks. -/
theorem C10_interrupted_stream_witness :
    (download_pdf (fun _ => HttpResp.resp 200 (BodyStream.interrupted "HALF")) "downloads"
      "https://t/a.pdf" [] []).success = false ∧
    (download_pdf (fun _ => HttpResp.resp 200 (BodyStream.interrupted "HALF")) "downloads"
      "https://t/a.pdf" [] []).ledger = [] ∧
    fileContent (download_pdf (fun _ => HttpResp.resp 200 (BodyStream.interrupted "HALF"))
      "downloads" "https://t/a.pdf" [] []).files (localName "downloads" "https://t/a.pdf") =
      some "HALF" ∧
    (download_pdf (fun _ => HttpResp.resp 200 (BodyStream.full "PDF")) "downloads"
      "https://t/a.pdf"
      (download_pdf (fun _ => HttpResp.resp 200 (BodyStream.interrupted "HALF")) "downloads"
        "https://t/a.pdf" [] []).files
      (download_pdf (fun _ => HttpResp.resp 200 (BodyStream.interrupted "HALF")) "downloads"
        "https://t/a.pdf" [] []).ledger).success = true ∧
    (download_pdf (fun _ => HttpResp.resp 200 (BodyStream.full "PDF")) "downloads"
      "https://t/a.pdf"
      (download_pdf (fun _ => HttpResp.resp 200 (BodyStream.interrupted "HALF")) "downloads"
        "https://t/a.pdf" [] []).files
      (download_pdf (fun _ => HttpResp.resp 200 (BodyStream.interrupted "HALF")) "downloads"
        "https://t/a.pdf" [] []).ledger).requests = 0 ∧
    (download_pdf (fun _ => HttpResp.resp 200 (BodyStream.full "PDF")) "downloads"
      "https://t/a.pdf"
      (download_pdf (fun _ => HttpResp.resp 200 (BodyStream.interrupted "HALF")) "downloads"
        "https://t/a.pdf" [] []).files
      (download_pdf (fun _ => HttpResp.resp 200 (BodyStream.interrupted "HALF")) "downloads"
        "https://t/a.pdf" [] []).ledger).files =
      (download_pdf (fun _ => HttpResp.resp 200 (BodyStream.interrupted "HALF")) "downloads"
        "https://t/a.pdf" [] []).files ∧
    (download_pdf (fun _ => HttpResp.resp 200 (BodyStream.full "PDF")) "downloads"
      "https://t/a.pdf"
      (download_pdf (fun _ => HttpResp.resp 200 (BodyStream.interrupted "HALF")) "downloads"
        "https://t/a.pdf" [] []).files
      (download_pdf (fun _ => HttpResp.resp 200 (BodyStream.interrupted "HALF")) "downloads"
        "https://t/a.pdf" [] []).ledger).ledger = [] :=
  C10_interrupted_stream (fun _ => HttpResp.resp 200 (BodyStream.interrupted "HALF"))
    (fun _ => HttpResp.resp 200 (BodyStream.full "PDF")) "downloads" "https://t/a.pdf"
    [] [] (fun _ => "HALF") (by decide) (by decide) (fun _ _ => rfl)

/-- C4 counterexample: two transient 500s followed by a 200 do succeed
with one ledger entry and three requests, but with an empty sleep list:
no exponential backoff happens between status-code retries (the code
only sleeps in its exception handler), refuting the claimed
"backoff between attempts" for non-200 retries. -/
theorem C4_counterexample :
    download_pdf
      (fun i => if i < 2 then HttpResp.resp 500 (BodyStream.full "")
        else HttpResp.resp 200 (BodyStream.full "PDF"))
      "downloads" "https://t/a.pdf" [] [] =
      ⟨true, [("downloads/a.pdf", "PDF")], ["https://t/a.pdf"], 3, []⟩ := by decide

/-- C4 (amended): `download_pdf` retries on any non-200 non-403 status or
raised request up to 3 attempts and fails after exhausting them, issuing
one request per attempt and leaving the ledger untouched; the backoff of
`2 ^ attempt` seconds occurs only after attempts that raised (never
after a non-200 status) and never after the final attempt; the
500/500/200 scenario returns success, exactly one ledger entry, and
performs no sleep. -/
theorem C4_retry_policy (sess : Nat → HttpResp) (outputDir url : String)
    (fs : FileSys) (ledger : List String)
    (hfile : fileExists fs (localName outputDir url) = false)
    (hled : ledgerHas url ledger = false) :
    ((∀ i, i < retryCount → isRetryable (sess i) = true) →
      (download_pdf sess outputDir url fs ledger).success = false ∧
      (download_pdf sess outputDir url fs ledger).requests = retryCount ∧
      (download_pdf sess outputDir url fs ledger).ledger = ledger ∧
      (download_pdf sess outputDir url fs ledger).sleeps = attemptSleeps sess 0 retryCount) ∧
    (∀ b0 b1 body, sess 0 = HttpResp.resp 500 b0 → sess 1 = HttpResp.resp 500 b1 →
      sess 2 = HttpResp.resp 200 (BodyStream.full body) →
      (download_pdf sess outputDir url fs ledger).success = true ∧
      List.count url (download_pdf sess outputDir url fs ledger).ledger = 1 ∧
      (download_pdf sess outputDir url fs ledger).requests = 3 ∧
      (download_pdf sess outputDir url fs ledger).sleeps = []) := by
  have hdl : download_pdf sess outputDir url fs ledger =
      dlLoop sess url (localName outputDir url) fs ledger 0 retryCount 0 [] := by
    simp [download_pdf, hfile, hled]
  constructor
  · intro hret
    obtain ⟨fs2, h⟩ := dlLoop_all_retryable sess url (localName outputDir url) fs ledger hret
    rw [hdl, h]
    exact ⟨rfl, rfl, rfl, rfl⟩
  · intro b0 b1 body h0 h1 h2
    have hret : ∀ j, j < 2 → isRetryable (sess (0 + j)) = true := by
      intro j hj
      interval_cases j
      · rw [Nat.zero_add, h0]; rfl
      · rw [Nat.zero_add, h1]; rfl
    obtain ⟨fs2, hskip⟩ := dlLoop_skip sess url (localName outputDir url) ledger 2 0 retryCount
      0 fs [] (by norm_num [retryCount]) hret
    have hstep : dlLoop sess url (localName outputDir url) fs2 ledger (0 + 2) (retryCount - 2)
        (0 + 2) ([] ++ attemptSleeps sess 0 2) =
        ⟨true, setFile fs2 (localName outputDir url) body, ledger ++ [url], 3,
          [] ++ attemptSleeps sess 0 2⟩ := by
      rw [show retryCount - 2 = 0 + 1 from rfl, dlLoop]
      rw [Nat.zero_add, h2]
      norm_num
    have hsl0 : isErrPath (sess 0) = false := by rw [h0]; rfl
    have hsl1 : isErrPath (sess 1) = false := by rw [h1]; rfl
    have hsleeps : attemptSleeps sess 0 2 = [] := by
      simp [attemptSleeps, hsl0, hsl1]
    rw [hdl, hskip, hstep]
    have hz : List.count url ledger = 0 :=
      List.count_eq_zero.mpr (not_mem_of_ledgerHas_eq_false hled)
    refine ⟨rfl, ?_, rfl, ?_⟩
    · show List.count url (ledger ++ [url]) = 1
      simp [List.count_append, hz]
    · show [] ++ attemptSleeps sess 0 2 = []
      simp [hsleeps]

/-- Witness for C4 (amended): exhaustion on three raised requests, and
the concrete 500/500/200 scenario. -/
theorem C4_retry_policy_witness :
    ((download_pdf (fun _ => HttpResp.netErr) "downloads" "https://t/a.pdf" [] []).success =
        false ∧
      (download_pdf (fun _ => HttpResp.netErr) "downloads" "https://t/a.pdf" [] []).requests =
        retryCount ∧
      (download_pdf (fun _ => HttpResp.netErr) "downloads" "https://t/a.pdf" [] []).ledger =
        [] ∧
      (download_pdf (fun _ => HttpResp.netErr) "downloads" "https://t/a.pdf" [] []).sleeps =
        attemptSleeps (fun _ => HttpResp.netErr) 0 retryCount) ∧
    ((download_pdf
        (fun i => if i < 2 then HttpResp.resp 500 (BodyStream.full "")
          else HttpResp.resp 200 (BodyStream.full "PDF"))
        "downloads" "https://t/a.pdf" [] []).success = true ∧
      List.count "https://t/a.pdf"
        (download_pdf
          (fun i => if i < 2 then HttpResp.resp 500 (BodyStream.full "")
            else HttpResp.resp 200 (BodyStream.full "PDF"))
          "downloads" "https://t/a.pdf" [] []).ledger = 1 ∧
      (download_pdf
        (fun i => if i < 2 then HttpResp.resp 500 (BodyStream.full "")
          else HttpResp.resp 200 (BodyStream.full "PDF"))
        "downloads" "https://t/a.pdf" [] []).requests = 3 ∧
      (download_pdf
        (fun i => if i < 2 then HttpResp.resp 500 (BodyStream.full "")
          else HttpResp.resp 200 (BodyStream.full "PDF"))
        "downloads" "https://t/a.pdf" [] []).sleeps = []) := by
  constructor
  · exact (C4_retry_policy (fun _ => HttpResp.netErr) "downloads" "https://t/a.pdf" [] []
      (by decide) (by decide)).1 (fun i _ => rfl)
  · exact (C4_retry_policy
      (fun i => if i < 2 then HttpResp.resp 500 (BodyStream.full "")
        else HttpResp.resp 200 (BodyStream.full "PDF"))
      "downloads" "https://t/a.pdf" [] [] (by decide) (by decide)).2
      (BodyStream.full "") (BodyStream.full "") "PDF" rfl rfl rfl

/-- C5: a 403 on any attempt (after retryable earlier attempts) is a
permanent failure: `download_pdf` returns false at once with no further
attempt (exactly `i + 1` requests in total) and writes no ledger
entry. -/
theorem C5_403_permanent (sess : Nat → HttpResp) (outputDir url : String)
    (fs : FileSys) (ledger : List String) (i : Nat) (b : BodyStream)
    (hfile : fileExists fs (localName outputDir url) = false)
    (hled : ledgerHas url ledger = false)
    (hi : i < retryCount)
    (hbefore : ∀ j, j < i → isRetryable (sess j) = true)
    (h403 : sess i = HttpResp.resp 403 b) :
    (download_pdf sess outputDir url fs ledger).success = false ∧
    (download_pdf sess outputDir url fs ledger).requests = i + 1 ∧
    (download_pdf sess outputDir url fs ledger).ledger = ledger := by
  obtain ⟨fs2, sl, h⟩ :=
    dlLoop_403_at sess url (localName outputDir url) fs ledger i b hi hbefore h403
  have hdl : download_pdf sess outputDir url fs ledger =
      dlLoop sess url (localName outputDir url) fs ledger 0 retryCount 0 [] := by
    simp [download_pdf, hfile, hled]
  rw [hdl, h]
  exact ⟨rfl, rfl, rfl⟩

/-- Witness for C5: an immediate 403 gives failure after exactly one
request and an empty ledger. -/
theorem C5_403_permanent_witness :
    (download_pdf (fun _ => HttpResp.resp 403 (BodyStream.full "")) "downloads"
      "https://t/a.pdf" [] []).success = false ∧
    (download_pdf (fun _ => HttpResp.resp 403 (BodyStream.full "")) "downloads"
      "https://t/a.pdf" [] []).requests = 0 + 1 ∧
    (download_pdf (fun _ => HttpResp.resp 403 (BodyStream.full "")) "downloads"
      "https://t/a.pdf" [] []).ledger = [] :=
  C5_403_permanent (fun _ => HttpResp.resp 403 (BodyStream.full "")) "downloads"
    "https://t/a.pdf" [] [] 0 (BodyStream.full "") (by decide) (by decide)
    (by norm_num [retryCount]) (fun j hj => absurd hj (Nat.not_lt_zero j)) rfl

/-- C6 counterexample: a 200 page whose single anchor has exactly
href="/files/deck.pdf" but lacks the data-feathr-click-track attribute
makes the resolver return nothing, refuting the claim that any page with
exactly one .pdf anchor yields that href. -/
theorem C6_counterexample :
    List.countP (fun a => a.href == some "/files/deck.pdf")
      [Anchor.mk (some "/files/deck.pdf") false] = 1 ∧
    get_pdf_url_from_presentation
      (PageResp.resp 200 [Anchor.mk (some "/files/deck.pdf") false]) = none := by decide

/-- C6 (amended): on a 200 page whose unique anchor matching the
line-280 filter (tracking attribute present and href ending in .pdf) is
`a`, the resolver returns the href of `a` verbatim; it returns nothing
(not an error) when no anchor matches, when the status is not 200, or
when the fetch raises. -/
theorem C6_resolver_verbatim :
    (∀ (anchors : List Anchor) (a : Anchor) (h : String),
      List.filter anchorMatchesPdf anchors = [a] → a.href = some h →
      get_pdf_url_from_presentation (PageResp.resp 200 anchors) = some h) ∧
    (∀ anchors : List Anchor, List.filter anchorMatchesPdf anchors = [] →
      get_pdf_url_from_presentation (PageResp.resp 200 anchors) = none) ∧
    (∀ (code : Nat) (anchors : List Anchor), code ≠ 200 →
      get_pdf_url_from_presentation (PageResp.resp code anchors) = none) ∧
    get_pdf_url_from_presentation PageResp.err = none := by
  refine ⟨?_, ?_, ?_, rfl⟩
  · intro anchors a h hfilter hhref
    have hfind : anchors.find? anchorMatchesPdf = some a := by
      rw [find?_eq_head_of_filter, hfilter]
      rfl
    have hmem : a ∈ List.filter anchorMatchesPdf anchors := by
      rw [hfilter]
      exact List.mem_singleton.mpr rfl
    have hmatch : anchorMatchesPdf a = true := (List.mem_filter.mp hmem).2
    have hne : ¬h = "" := by
      intro he
      subst he
      rw [anchorMatchesPdf, hhref] at hmatch
      simp only [Bool.and_eq_true] at hmatch
      exact absurd hmatch.2 (by decide)
    simp [get_pdf_url_from_presentation, hfind, hhref, hne]
  · intro anchors hfilter
    have hfind : anchors.find? anchorMatchesPdf = none := by
      rw [find?_eq_head_of_filter, hfilter]
      rfl
    simp [get_pdf_url_from_presentation, hfind]
  · intro code anchors hc
    simp [get_pdf_url_from_presentation, hc]

/-- Witness for C6 (amended): a matching anchor returns its href
verbatim (here a relative one); a page whose anchors do not match
returns nothing; a 404 returns nothing. -/
theorem C6_resolver_verbatim_witness :
    get_pdf_url_from_presentation
      (PageResp.resp 200 [Anchor.mk (some "/files/deck.pdf") true]) =
      some "/files/deck.pdf" ∧
    get_pdf_url_from_presentation
      (PageResp.resp 200 [Anchor.mk (some "/files/deck.pdf") false]) = none ∧
    get_pdf_url_from_presentation
      (PageResp.resp 404 [Anchor.mk (some "/files/deck.pdf") true]) = none := by
  refine ⟨?_, ?_, ?_⟩
  · exact C6_resolver_verbatim.1 [Anchor.mk (some "/files/deck.pdf") true]
      (Anchor.mk (some "/files/deck.pdf") true) "/files/deck.pdf" (by decide) rfl
  · exact C6_resolver_verbatim.2.1 [Anchor.mk (some "/files/deck.pdf") false] (by decide)
  · exact C6_resolver_verbatim.2.2.1 404 [Anchor.mk (some "/files/deck.pdf") true] (by decide)

/-- C3: `login` returns failure (false, never an exception, which the
embedding renders as the `err` oracle outcomes being handled) on every
failure mode: a raised initial GET, a raised login POST, a non-200 POST
status, a JSON decode error, falsy `success`, a missing
`cookie_redirect`, a raised or malformed hop of the redirect chain (a
redirect without a truthy Location, or an unexpected status), and
exceeding the 5-hop redirect limit. -/
theorem C3_login_failure_totality (o : LoginOracle) :
    (o.initialOk = false → login o = false) ∧
    (o.post = PostResp.err → login o = false) ∧
    (∀ (c : Nat) (b : JsonBody), o.post = PostResp.resp c b → c ≠ 200 → login o = false) ∧
    (o.post = PostResp.resp 200 JsonBody.malformed → login o = false) ∧
    (∀ cr : Option String, o.post = PostResp.resp 200 (JsonBody.obj false cr) →
      login o = false) ∧
    (o.post = PostResp.resp 200 (JsonBody.obj true none) → login o = false) ∧
    (∀ k : Nat, k < maxRedirects →
      (∀ j, j < k → (o.hops j).isRedirWithLoc = true) →
      ((o.hops k).isRedirNoLoc = true ∨ o.hops k = HopResp.err ∨
        ∃ c l, o.hops k = HopResp.resp c l ∧ isRedirectCode c = false ∧ c ≠ 200) →
      login o = false) ∧
    ((∀ j, j < maxRedirects → (o.hops j).isRedirWithLoc = true) → login o = false) := by
  refine ⟨?_, ?_, ?_, ?_, ?_, ?_, ?_, ?_⟩
  · intro h
    simp [login, h]
  · intro h
    simp [login, h]
  · intro c b h hc
    simp [login, h, hc]
  · intro h
    simp [login, h]
  · intro cr h
    simp [login, h]
  · intro h
    simp [login, h]
  · intro k hk hall hbad
    rcases login_eq_false_or_chain o with hF | hC
    · exact hF
    · rw [hC]
      refine followOktaLoop_stops o.hops o.root k maxRedirects 0 hk ?_ ?_
      · intro j hj
        simpa using hall j hj
      · simpa using hbad
  · intro hall
    rcases login_eq_false_or_chain o with hF | hC
    · exact hF
    · rw [hC]
      refine followOktaLoop_all_redirects o.hops o.root maxRedirects 0 ?_
      intro j _ hj
      exact hall j (by omega)

/-- Witness for C3, one concrete oracle per failure mode: raised initial
GET; raised POST; status 500; decode error; falsy success; missing
cookie_redirect; a redirect hop without a Location; five continuing
redirects. -/
theorem C3_login_failure_totality_witness :
    login ⟨false, PostResp.err, fun _ => HopResp.err, RootResp.err⟩ = false ∧
    login ⟨true, PostResp.err, fun _ => HopResp.err, RootResp.err⟩ = false ∧
    login ⟨true, PostResp.resp 500 JsonBody.malformed, fun _ => HopResp.err,
      RootResp.err⟩ = false ∧
    login ⟨true, PostResp.resp 200 JsonBody.malformed, fun _ => HopResp.err,
      RootResp.err⟩ = false ∧
    login ⟨true, PostResp.resp 200 (JsonBody.obj false none), fun _ => HopResp.err,
      RootResp.err⟩ = false ∧
    login ⟨true, PostResp.resp 200 (JsonBody.obj true none), fun _ => HopResp.err,
      RootResp.err⟩ = false ∧
    login ⟨true, PostResp.resp 200 (JsonBody.obj true (some "https://idp/x")),
      fun _ => HopResp.resp 302 none, RootResp.resp 200 true true⟩ = false ∧
    login ⟨true, PostResp.resp 200 (JsonBody.obj true (some "https://idp/x")),
      fun _ => HopResp.resp 302 (some "https://idp/y"), RootResp.resp 200 true true⟩ =
      false := by
  refine ⟨?_, ?_, ?_, ?_, ?_, ?_, ?_, ?_⟩
  · exact (C3_login_failure_totality _).1 rfl
  · exact (C3_login_failure_totality _).2.1 rfl
  · exact (C3_login_failure_totality _).2.2.1 500 JsonBody.malformed rfl (by decide)
  · exact (C3_login_failure_totality _).2.2.2.1 rfl
  · exact (C3_login_failure_totality _).2.2.2.2.1 none rfl
  · exact (C3_login_failure_totality _).2.2.2.2.2.1 rfl
  · exact (C3_login_failure_totality _).2.2.2.2.2.2.1 0 (by decide)
      (fun j hj => absurd hj (Nat.not_lt_zero j)) (Or.inl (by decide))
  · exact (C3_login_failure_totality _).2.2.2.2.2.2.2 (fun j _ => rfl)

/-- C7 counterexample: with a login that succeeds, an empty listing
makes `download_all_pdfs` return failure (its error path, lines
355-357), not a successful pagination termination — there is no
pagination loop at all. -/
theorem C7_counterexample :
    login ⟨true, PostResp.resp 200 (JsonBody.obj true (some "https://idp/x")),
      fun _ => HopResp.resp 200 none, RootResp.resp 200 true true⟩ = true ∧
    (download_all_pdfs true
      ⟨true, PostResp.resp 200 (JsonBody.obj true (some "https://idp/x")),
        fun _ => HopResp.resp 200 none, RootResp.resp 200 true true⟩
      [] (fun _ => none) (fun _ _ => HttpResp.netErr) "downloads" [] []).success =
      false := by
  exact ⟨by decide, by decide⟩

/-- C7 (amended): an empty first-page listing (like a failed login)
makes the run return failure; when the listing is nonempty, no
resolution or download failure aborts the run — it returns success
whatever the resolver and download oracles do. -/
theorem C7_error_containment (tm : Bool) (lo : LoginOracle) (pres : List String)
    (resolve : String → Option String) (sess : String → Nat → HttpResp)
    (outputDir : String) (fs : FileSys) (ledger : List String) :
    (login lo = true → pres ≠ [] →
      (download_all_pdfs tm lo pres resolve sess outputDir fs ledger).success = true) ∧
    (pres = [] →
      (download_all_pdfs tm lo pres resolve sess outputDir fs ledger).success = false) ∧
    (login lo = false →
      (download_all_pdfs tm lo pres resolve sess outputDir fs ledger).success = false) := by
  refine ⟨?_, ?_, ?_⟩
  · intro hl hp
    cases pres with
    | nil => exact absurd rfl hp
    | cons p ps => simp [download_all_pdfs, hl]
  · intro hp
    subst hp
    by_cases hl : login lo = true
    · simp [download_all_pdfs, hl]
    · simp only [Bool.not_eq_true] at hl
      simp [download_all_pdfs, hl]
  · intro hl
    simp [download_all_pdfs, hl]

/-- Witness for C7 (amended): a successful login with one presentation
whose resolution fails still yields a successful run; the empty listing
and the failed login both yield failure. -/
theorem C7_error_containment_witness :
    (download_all_pdfs true
      ⟨true, PostResp.resp 200 (JsonBody.obj true (some "https://idp/x")),
        fun _ => HopResp.resp 200 none, RootResp.resp 200 true true⟩
      ["https://www.tctmd.com/slide/p1"] (fun _ => none) (fun _ _ => HttpResp.netErr)
      "downloads" [] []).success = true ∧
    (download_all_pdfs true
      ⟨true, PostResp.resp 200 (JsonBody.obj true (some "https://idp/x")),
        fun _ => HopResp.resp 200 none, RootResp.resp 200 true true⟩
      [] (fun _ => none) (fun _ _ => HttpResp.netErr) "downloads" [] []).success = false ∧
    (download_all_pdfs true ⟨false, PostResp.err, fun _ => HopResp.err, RootResp.err⟩
      ["https://www.tctmd.com/slide/p1"] (fun _ => none) (fun _ _ => HttpResp.netErr)
      "downloads" [] []).success = false := by
  refine ⟨?_, ?_, ?_⟩
  · exact (C7_error_containment true _ _ _ _ _ _ _).1 (by decide) (by decide)
  · exact (C7_error_containment true _ _ _ _ _ _ _).2.1 rfl
  · exact (C7_error_containment true _ _ _ _ _ _ _).2.2 (by decide)

/-- C8 counterexample: in test mode, with three presentations listed and
the third one downloadable, the run stops after attempting only the
first two; the first download is denied (403), so the run ends with one
successful download, not two, and never touches the third
presentation. -/
theorem C8_counterexample :
    download_all_pdfs true
      ⟨true, PostResp.resp 200 (JsonBody.obj true (some "https://idp/x")),
        fun _ => HopResp.resp 200 none, RootResp.resp 200 true true⟩
      ["https://t/slide/p1", "https://t/slide/p2", "https://t/slide/p3"]
      (fun p => if p = "https://t/slide/p1" then some "https://t/a.pdf"
        else if p = "https://t/slide/p2" then some "https://t/b.pdf"
        else some "https://t/c.pdf")
      (fun u => if u = "https://t/a.pdf" then fun _ => HttpResp.resp 403 (BodyStream.full "")
        else fun _ => HttpResp.resp 200 (BodyStream.full "PDF"))
      "downloads" [] [] =
      ⟨true, [("downloads/b.pdf", "PDF")], ["https://t/b.pdf"], 1⟩ := by decide

/-- C8 (amended): the run ignores the test-mode flag entirely, processes
at most the first two presentations of the single listed page whatever
mode it is in, and therefore ends with at most two successful downloads
(not necessarily exactly two). -/
theorem C8_first_two_only (tm tm2 : Bool) (lo : LoginOracle) (pres : List String)
    (resolve : String → Option String) (sess : String → Nat → HttpResp)
    (outputDir : String) (fs : FileSys) (ledger : List String) :
    download_all_pdfs tm lo pres resolve sess outputDir fs ledger =
      download_all_pdfs tm2 lo pres resolve sess outputDir fs ledger ∧
    download_all_pdfs tm lo pres resolve sess outputDir fs ledger =
      download_all_pdfs tm lo (pres.take 2) resolve sess outputDir fs ledger ∧
    (download_all_pdfs tm lo pres resolve sess outputDir fs ledger).downloadCount ≤ 2 := by
  refine ⟨rfl, ?_, ?_⟩
  · by_cases hl : login lo = true
    · cases pres with
      | nil => rfl
      | cons p ps =>
        simp only [download_all_pdfs, hl, Bool.not_true, Bool.false_eq_true, if_false,
          List.isEmpty_cons, List.take_succ_cons, List.take_take]
        norm_num
    · simp only [Bool.not_eq_true] at hl
      simp [download_all_pdfs, hl]
  · by_cases hl : login lo = true
    · cases pres with
      | nil => simp [download_all_pdfs, hl]
      | cons p ps =>
        have hfold : (List.foldl (processOne resolve sess outputDir) (fs, ledger, 0)
            ((p :: ps).take 2)).2.2 ≤ 0 + ((p :: ps).take 2).length :=
          foldl_processOne_count_le resolve sess outputDir ((p :: ps).take 2) (fs, ledger, 0)
        have hlen : ((p :: ps).take 2).length ≤ 2 := List.length_take_le 2 _
        simp only [download_all_pdfs, hl, Bool.not_true, Bool.false_eq_true, if_false,
          List.isEmpty_cons]
        omega
    · simp only [Bool.not_eq_true] at hl
      simp [download_all_pdfs, hl]

end TCTMD
